import Mathlib

/-!
Verification of the frame-simulation core of the Alien Invaders game
(src/main.cpp). The definitions below are a shallow embedding of the
C++ source: unsigned 32-bit machine integers are modelled as `Nat`
with explicit reduction modulo `2 ^ 32` wherever the C code can wrap,
signed `int` values as `Int`, fixed C arrays as total functions out of
`Nat`, and sprite bitmaps as their literal data lists.
-/

set_option maxRecDepth 4000

namespace AlienInvaders

/-- The modulus of C `unsigned int` arithmetic, `2 ^ 32`. -/
def U32 : Nat := 4294967296

/-- C unsigned subtraction `a - b` on 32-bit values (wraps below zero). -/
def usub (a b : Nat) : Nat := (a + (U32 - b % U32)) % U32

/-- Conversion of a C signed `int` value to `unsigned int`, as a `Nat`. -/
def i2u (z : Int) : Nat := (z % (U32 : Int)).toNat

/-- Sprite struct from the source: width, height and the bitmap data,
indexed row-major as `data[j * width + i]`. -/
structure Sprite where
  width : Nat
  height : Nat
  data : List Nat
deriving DecidableEq

/-- Reading the sprite bitmap entry `data[j * width + i]`; set means nonzero. -/
def Sprite.bit (s : Sprite) (i j : Nat) : Bool := s.data.getD (j * s.width + i) 0 != 0

/-- The pixel buffer: `width`, `height` and the `uint32_t` pixel array,
modelled as a total function from flat indices to pixel values. -/
structure Buffer where
  width : Nat
  height : Nat
  data : Nat → Nat

/-- `clear_buffer`: overwrite every pixel `i < width * height` with `color`. -/
def clear_buffer (b : Buffer) (color : Nat) : Buffer :=
  { b with data := fun n => if n < b.width * b.height then color else b.data n }

/-- `sprite_overlap_check` from the source: the four strict unsigned
comparisons on the two bounding boxes. C `a > b` is written `b < a`. -/
def sprite_overlap_check (sp_a : Sprite) (x_a y_a : Nat) (sp_b : Sprite) (x_b y_b : Nat) :
    Bool :=
  decide (x_a < (x_b + sp_b.width) % U32 ∧ x_b < (x_a + sp_a.width) % U32 ∧
    y_a < (y_b + sp_b.height) % U32 ∧ y_b < (y_a + sp_a.height) % U32)

/-- The body of the double loop of `DrawSprite` for a single `(i, j)` pair:
`yPos = sprite.height - 1 + y - j` and `xPos = x + i` in unsigned
arithmetic; write `color` when the bit is set and both guards hold. -/
def drawPix (b : Buffer) (s : Sprite) (x y color i j : Nat) : Buffer :=
  if s.bit i j ∧ usub ((s.height - 1 + y) % U32) j < b.height ∧ (x + i) % U32 < b.width then
    { b with data := fun n =>
        if n = usub ((s.height - 1 + y) % U32) j * b.width + (x + i) % U32 then color
        else b.data n }
  else b

/-- The inner `j` loop of `DrawSprite` run for `j = 0, 1, ..., n - 1`. -/
def drawSpriteJ (b : Buffer) (s : Sprite) (x y color i : Nat) : Nat → Buffer
  | 0 => b
  | n + 1 => drawPix (drawSpriteJ b s x y color i n) s x y color i n

/-- The outer `i` loop of `DrawSprite` run for `i = 0, 1, ..., n - 1`. -/
def drawSpriteI (b : Buffer) (s : Sprite) (x y color : Nat) : Nat → Buffer
  | 0 => b
  | n + 1 => drawSpriteJ (drawSpriteI b s x y color n) s x y color n s.height

/-- `DrawSprite` from the source: both loops over the full sprite extent. -/
def DrawSprite (b : Buffer) (s : Sprite) (x y color : Nat) : Buffer :=
  drawSpriteI b s x y color s.width

/-- Pixel of a buffer at coordinates `(cx, cy)`, flat index `cy * width + cx`. -/
def getPix (b : Buffer) (cx cy : Nat) : Nat := b.data (cy * b.width + cx)

/-- Whether some set bit of sprite column `i` among rows `j < m` lands on
buffer coordinate `(cx, cy)` when the sprite is anchored at `(x, y)`
(pure coordinates, no wrapping). -/
def coveredColPix (s : Sprite) (x y cx cy i m : Nat) : Bool :=
  (List.range m).any fun j =>
    s.bit i j && decide (cx = x + i) && decide (cy = y + (s.height - 1 - j))

/-- Whether some set bit in sprite columns `i < m` lands on `(cx, cy)`. -/
def coveredPixUpTo (s : Sprite) (x y cx cy m : Nat) : Bool :=
  (List.range m).any fun i => coveredColPix s x y cx cy i s.height

/-- Whether some set sprite bit lands on buffer coordinate `(cx, cy)` when the
sprite is anchored at `(x, y)` (pure coordinates, no wrapping). -/
def coveredPix (s : Sprite) (x y cx cy : Nat) : Bool :=
  coveredPixUpTo s x y cx cy s.width

/-- `ALIEN_DEAD` from the `AlienType` enum. -/
def ALIEN_DEAD : Nat := 0

/-- `GAME_MAX_ROCKETS`. -/
def GAME_MAX_ROCKETS : Nat := 128

/-- `buffer_width` from the source (300). -/
def buffer_width : Nat := 300

/-- `buffer_height` from the source (400). -/
def buffer_height : Nat := 400

/-- `game.alien_hoard_size`. -/
def alien_hoard_size : Nat := 50

/-- Alien record: position and type byte. -/
structure Alien where
  x : Nat
  y : Nat
  type : Nat
deriving DecidableEq

/-- Rocket record: position and signed direction. -/
structure Rocket where
  x : Nat
  y : Nat
  dir : Int
deriving DecidableEq

/-- Alien type 1 animation frame 1 (`alien_sprites[0]`), 11 x 8. -/
def alien_sprite_0 : Sprite :=
  ⟨11, 8,
   [0,0,1,0,0,0,0,0,1,0,0,
    0,0,0,1,0,0,0,1,0,0,0,
    0,0,1,1,1,1,1,1,1,0,0,
    0,1,1,0,1,1,1,0,1,1,0,
    1,1,1,1,1,1,1,1,1,1,1,
    1,0,1,1,1,1,1,1,1,0,1,
    1,0,1,0,0,0,0,0,1,0,1,
    0,0,0,1,1,0,1,1,0,0,0]⟩

/-- Alien type 1 animation frame 2 (`alien_sprites[1]`), 11 x 8. -/
def alien_sprite_1 : Sprite :=
  ⟨11, 8,
   [0,0,1,0,0,0,0,0,1,0,0,
    1,0,0,1,0,0,0,1,0,0,1,
    1,0,1,1,1,1,1,1,1,0,1,
    1,1,1,0,1,1,1,0,1,1,1,
    1,1,1,1,1,1,1,1,1,1,1,
    0,0,1,1,1,1,1,1,1,0,0,
    0,0,1,0,0,0,0,0,1,0,0,
    0,1,0,0,0,0,0,0,0,1,0]⟩

/-- Alien type 2 animation frame 1 (`alien_sprites[2]`), 8 x 8. -/
def alien_sprite_2 : Sprite :=
  ⟨8, 8,
   [0,0,0,1,1,0,0,0,
    0,0,1,1,1,1,0,0,
    0,1,1,1,1,1,1,0,
    1,1,0,1,1,0,1,1,
    1,1,1,1,1,1,1,1,
    0,1,0,1,1,0,1,0,
    1,0,0,0,0,0,0,1,
    0,1,0,0,0,0,1,0]⟩

/-- Alien type 2 animation frame 2 (`alien_sprites[3]`), 8 x 8. -/
def alien_sprite_3 : Sprite :=
  ⟨8, 8,
   [0,0,0,1,1,0,0,0,
    0,0,1,1,1,1,0,0,
    0,1,1,1,1,1,1,0,
    1,1,0,1,1,0,1,1,
    1,1,1,1,1,1,1,1,
    0,0,1,0,0,1,0,0,
    0,1,0,1,1,0,1,0,
    1,0,1,0,0,1,0,1]⟩

/-- The `alien_sprites` array. -/
def alien_sprites (k : Nat) : Sprite :=
  [alien_sprite_0, alien_sprite_1, alien_sprite_2, alien_sprite_3].getD k ⟨0, 0, []⟩

/-- `alien_death_sprite`, 13 x 7. -/
def alien_death_sprite : Sprite :=
  ⟨13, 7,
   [0,1,0,0,1,0,0,0,1,0,0,1,0,
    0,0,1,0,0,1,0,1,0,0,1,0,0,
    0,0,0,1,0,0,0,0,0,1,0,0,0,
    1,1,0,0,0,0,0,0,0,0,0,1,1,
    0,0,0,1,0,0,0,0,0,1,0,0,0,
    0,0,1,0,0,1,0,1,0,0,1,0,0,
    0,1,0,0,1,0,0,0,1,0,0,1,0]⟩

/-- `playerSprite`, 10 x 10. -/
def playerSprite : Sprite :=
  ⟨10, 10,
   [0,0,1,0,0,0,0,1,0,0,
    0,0,1,0,0,0,0,1,0,0,
    0,1,1,1,0,0,1,1,1,0,
    0,1,1,1,0,0,1,1,1,0,
    0,1,1,1,0,0,1,1,1,0,
    0,1,1,1,1,1,1,1,1,0,
    0,1,1,1,1,1,1,1,1,0,
    0,1,1,1,1,1,1,1,1,0,
    0,1,1,1,1,1,1,1,1,0,
    1,1,1,1,1,1,1,1,1,1]⟩

/-- `rocket_sprite`, 2 x 5. -/
def rocket_sprite : Sprite := ⟨2, 5, [1,1,1,1,1,1,1,1,1,1]⟩

/-- The alien written by the formation-setup loop at row `j`, column `i`
(index `j * 10 + i` of `game.alien_array`): the type condition is the
source's literal `j * 10 + 1 < 20`, positions `30 + i * (11 + 15)` and
`250 + j * (8 + 15)`. -/
def initAlien (j i : Nat) : Alien :=
  { x := 30 + i * (11 + 15)
    y := 250 + j * (8 + 15)
    type := if j * 10 + 1 < 20 then 1 else 2 }

/-- `game.alien_array` right after formation setup, as a function of the
flat index `n = j * 10 + i`. -/
def initAlienArray : Nat → Alien := fun n => initAlien (n / 10) (n % 10)

/-- The `death_counter` array right after its initialisation loop
(every slot set to 10). -/
def initDeathCounter : Nat → Nat := fun _ => 10

/-- `frame_duration` of each alien animation (10 ticks per frame). -/
def frame_duration : Nat := 10

/-- `num_frames` of each alien animation. -/
def num_frames : Nat := 2

/-- The live sprite used for an alien of type `ty`, given the animation
`time` of each animation clock: `alien_animation[ty - 1]` has frames
`alien_sprites[2 * (ty - 1)]` and `alien_sprites[2 * (ty - 1) + 1]`, and
`current_frame = time / frame_duration`. -/
def alienSpriteOf (animTime : Nat → Nat) (ty : Nat) : Sprite :=
  alien_sprites (2 * (ty - 1) + animTime (ty - 1) / frame_duration)

/-- The animation-clock advance in the game loop: `time++`, reset to 0 when
it reaches `num_frames * frame_duration`. -/
def animAdvance (t : Nat) : Nat :=
  if (t + 1) % U32 = num_frames * frame_duration then 0 else (t + 1) % U32

/-- The pieces of game state that the projectile-vs-alien scan touches. -/
structure ScanState where
  aliens : Nat → Alien
  rockets : Nat → Rocket
  numRockets : Nat
  score : Nat
  aliens_killed : Int

/-- The mutation a hit applies to the struck alien: type set to
`ALIEN_DEAD` and `x -= (alien_death_sprite.width - alien_sprite.width) / 2`
(unsigned), where `sp` is the live sprite the alien was using. -/
def killAlien (a : Alien) (sp : Sprite) : Alien :=
  { a with type := ALIEN_DEAD
           x := usub a.x ((alien_death_sprite.width - sp.width) / 2) }

/-- One iteration (alien index `j`) of the inner collision loop for the
rocket in slot `i`: skip dead aliens, otherwise test
`sprite_overlap_check` and on a hit update score and kill counter, kill the
alien, and swap-remove the rocket (`rockets[i] = rockets[num_rockets - 1];
num_rockets--`, both in unsigned arithmetic). -/
def scanStep (s : ScanState) (i : Nat) (animTime : Nat → Nat) (j : Nat) : ScanState :=
  if (s.aliens j).type = ALIEN_DEAD then s
  else if sprite_overlap_check rocket_sprite (s.rockets i).x (s.rockets i).y
      (alienSpriteOf animTime (s.aliens j).type) (s.aliens j).x (s.aliens j).y then
    { aliens := fun k =>
        if k = j then killAlien (s.aliens j) (alienSpriteOf animTime (s.aliens j).type)
        else s.aliens k
      rockets := fun k => if k = i then s.rockets (usub s.numRockets 1) else s.rockets k
      numRockets := usub s.numRockets 1
      score := (s.score + i2u (10 * (4 - ((s.aliens j).type : Int)))) % U32
      aliens_killed := s.aliens_killed + 1 }
  else s

/-- The inner collision loop run for alien indices `j = 0, 1, ..., n - 1`. -/
def alienScan (s : ScanState) (i : Nat) (animTime : Nat → Nat) : Nat → ScanState
  | 0 => s
  | n + 1 => scanStep (alienScan s i animTime n) i animTime n

/-- The rocket in slot `i` at the start of the scan (the projectile being
processed). -/
def processedRocket (s : ScanState) (i : Nat) : Rocket := s.rockets i

/-- An alien record the scanned rocket `r` can hit: not dead, and its live
sprite bounding box overlaps the rocket sprite at `r`. -/
def hitCandidate (animTime : Nat → Nat) (r : Rocket) (a : Alien) : Bool :=
  decide (a.type ≠ ALIEN_DEAD) &&
    sprite_overlap_check rocket_sprite r.x r.y (alienSpriteOf animTime a.type) a.x a.y

/-- Alien slot `j` is a hit candidate for the processed projectile and is
dead once the scan over all 50 aliens has finished. -/
def killedOverlapping (s : ScanState) (i : Nat) (animTime : Nat → Nat) (j : Nat) : Prop :=
  hitCandidate animTime (processedRocket s i) (s.aliens j) = true ∧
    ((alienScan s i animTime 50).aliens j).type = ALIEN_DEAD

/-- Every non-dead alien still carries its formation-setup record; this is
the state the alien array is in on every tick, since only a kill (which
makes the alien dead) ever rewrites an alien record. -/
def alienInv (aliens : Nat → Alien) : Prop :=
  ∀ j, j < 50 → (aliens j).type ≠ ALIEN_DEAD → aliens j = initAlienArray j

/-- The `first_line_array` entry for column `i`: the row-0 record if not
dead, else the first non-dead record among rows 1 to 4, else the row-4
record (`alien_array[i + 40]`). -/
def first_line_entry (aliens : Nat → Alien) (i : Nat) : Alien :=
  if (aliens i).type ≠ ALIEN_DEAD then aliens i
  else if (aliens (i + 10)).type ≠ ALIEN_DEAD then aliens (i + 10)
  else if (aliens (i + 20)).type ≠ ALIEN_DEAD then aliens (i + 20)
  else if (aliens (i + 30)).type ≠ ALIEN_DEAD then aliens (i + 30)
  else if (aliens (i + 40)).type ≠ ALIEN_DEAD then aliens (i + 40)
  else aliens (i + 40)

/-- The pieces of state the alien-fire block reads and writes. -/
structure FireState where
  frame_counter : Nat
  rockets : Nat → Rocket
  numRockets : Nat

/-- The spawn attempt inside the alien-fire block: if the selected
first-line alien `fl` is not dead, append the rocket
`(fl.x + 4, fl.y - 10, dir = -3)` to the pool; otherwise do nothing. -/
def alienSpawn (s : FireState) (fl : Alien) : FireState :=
  if fl.type ≠ ALIEN_DEAD then
    { s with
      rockets := fun k =>
        if k = s.numRockets then ⟨(fl.x + 4) % U32, usub fl.y 10, -3⟩ else s.rockets k
      numRockets := (s.numRockets + 1) % U32 }
  else s

/-- The alien-fire block at the end of the game loop: `frame_counter++`;
if it equals 30 and the pool is not full, draw `rand % 10`, run the spawn
attempt from that first-line alien, and reset the counter — the reset
happens inside the capacity check. -/
def alienFire (s : FireState) (first_line : Nat → Alien) (randVal : Nat) : FireState :=
  if (s.frame_counter + 1) % U32 = 30 ∧ s.numRockets < GAME_MAX_ROCKETS then
    { alienSpawn s (first_line (randVal % 10)) with frame_counter := 0 }
  else { s with frame_counter := (s.frame_counter + 1) % U32 }

/-- The per-tick rocket position update `rockets[i].y += rockets[i].dir`
(unsigned plus signed). -/
def rocket_advance (r : Rocket) : Rocket := { r with y := i2u ((r.y : Int) + r.dir) }

/-- The player-movement block: `player_move_dir = 2 * move_dir`; clamp to
the right edge when `x + playerSprite.width + pmd >= width` (unsigned),
to 0 when `(int)x + pmd <= 0`, else `x += pmd`. -/
def playerMoveStep (x : Nat) (move_dir : Int) : Nat :=
  let pmd : Int := 2 * move_dir
  if pmd ≠ 0 then
    if buffer_width ≤ i2u ((x : Int) + (playerSprite.width : Int) + pmd) then
      buffer_width - playerSprite.width
    else if (x : Int) + pmd ≤ 0 then 0
    else i2u ((x : Int) + pmd)
  else x

/-- The death-counter update of the "handle alien deaths" loop for one
slot: decrement only while the alien is dead and the counter is nonzero. -/
def deathCountStep (a : Alien) (c : Nat) : Nat :=
  if a.type = ALIEN_DEAD ∧ c ≠ 0 then c - 1 else c

/-- What the alien draw loop does with a slot: skipped entirely when the
death counter is zero, death sprite when the type is dead, live sprite
otherwise. -/
inductive DrawKind where
  | invisible : DrawKind
  | deathSprite : DrawKind
  | liveSprite : DrawKind
deriving DecidableEq

/-- The draw decision for an alien slot with death counter `c`. -/
def drawKindOf (a : Alien) (c : Nat) : DrawKind :=
  if c = 0 then DrawKind.invisible
  else if a.type = ALIEN_DEAD then DrawKind.deathSprite
  else DrawKind.liveSprite

/-- The death-handling phase applied to one slot (record, counter): the
loop only touches the counter, never the record. -/
def deathPhaseStep (p : Alien × Nat) : Alien × Nat := (p.1, deathCountStep p.1 p.2)

/-- The slot after `n` ticks of the death-handling phase. -/
def deathPhaseIter (p : Alien × Nat) : Nat → Alien × Nat
  | 0 => p
  | n + 1 => deathPhaseStep (deathPhaseIter p n)

/-! ### Arithmetic helper lemmas -/

theorem usub_eq_sub (a b : Nat) (hba : b ≤ a) (ha : a < U32) : usub a b = a - b := by
  unfold usub U32 at *
  omega

theorem i2u_of_bounds (z : Int) (h0 : 0 ≤ z) (h1 : z < (U32 : Int)) : (i2u z : Int) = z := by
  unfold i2u
  rw [Int.emod_eq_of_lt h0 h1, Int.toNat_of_nonneg h0]

/-! ### Claim C5: properties of the bounding-box overlap test -/

/-- Claim C5: `sprite_overlap_check` is symmetric for all sprite sizes and
positions; the strict comparisons make boxes sharing only an edge (the
spec example: A over x in [0,2), B over x in [2,4), same y range) report
no overlap; and for inputs whose box extents do not overflow 32 bits, the
check returns true exactly when the two boxes share a pixel. -/
theorem c5_overlap_symmetric_and_strict :
    (∀ (spA spB : Sprite) (xa ya xb yb : Nat),
      sprite_overlap_check spA xa ya spB xb yb = sprite_overlap_check spB xb yb spA xa ya) ∧
    sprite_overlap_check ⟨2, 3, []⟩ 0 0 ⟨2, 3, []⟩ 2 0 = false ∧
    (∀ (spA spB : Sprite) (xa ya xb yb : Nat),
      0 < spA.width → 0 < spA.height → 0 < spB.width → 0 < spB.height →
      xa + spA.width < U32 → ya + spA.height < U32 →
      xb + spB.width < U32 → yb + spB.height < U32 →
      (sprite_overlap_check spA xa ya spB xb yb = true ↔
        ∃ px py, xa ≤ px ∧ px < xa + spA.width ∧ xb ≤ px ∧ px < xb + spB.width ∧
          ya ≤ py ∧ py < ya + spA.height ∧ yb ≤ py ∧ py < yb + spB.height)) := by
  refine ⟨?_, by decide, ?_⟩
  · intro spA spB xa ya xb yb
    simp only [sprite_overlap_check, decide_eq_decide]
    constructor
    · rintro ⟨h1, h2, h3, h4⟩
      exact ⟨h2, h1, h4, h3⟩
    · rintro ⟨h1, h2, h3, h4⟩
      exact ⟨h2, h1, h4, h3⟩
  · intro spA spB xa ya xb yb hpa hpb hpc hpd ha hb hc hd
    rw [sprite_overlap_check, Nat.mod_eq_of_lt (by omega), Nat.mod_eq_of_lt (by omega),
      Nat.mod_eq_of_lt (by omega), Nat.mod_eq_of_lt (by omega), decide_eq_true_eq]
    constructor
    · rintro ⟨h1, h2, h3, h4⟩
      exact ⟨max xa xb, max ya yb, by omega, by omega, by omega, by omega,
        by omega, by omega, by omega, by omega⟩
    · rintro ⟨px, py, h1, h2, h3, h4, h5, h6, h7, h8⟩
      exact ⟨by omega, by omega, by omega, by omega⟩

/-- Witness for C5: the third clause applied to the rocket sprite against a
live type-1 alien sprite at concrete in-range positions. -/
theorem c5_witness :
    sprite_overlap_check rocket_sprite 30 248 alien_sprite_0 30 250 = true ↔
      ∃ px py, 30 ≤ px ∧ px < 30 + rocket_sprite.width ∧ 30 ≤ px ∧
        px < 30 + alien_sprite_0.width ∧ 248 ≤ py ∧ py < 248 + rocket_sprite.height ∧
        250 ≤ py ∧ py < 250 + alien_sprite_0.height :=
  c5_overlap_symmetric_and_strict.2.2 rocket_sprite alien_sprite_0 30 248 30 250
    (by decide) (by decide) (by decide) (by decide)
    (by decide) (by decide) (by decide) (by decide)

/-! ### Claim C10: formation setup -/

/-- Claim C10: the formation-setup loop creates the 10 x 5 grid (50 aliens)
with the alien at column `i`, row `j` positioned at `(30 + 26 i, 250 + 23 j)`,
type 1 in rows 0 and 1 and type 2 in rows 2 to 4, no alien initialised dead,
and every death counter starting at 10. -/
theorem c10_formation_setup (i j : Nat) (hi : i < 10) (hj : j < 5) :
    alien_hoard_size = 50 ∧
    initAlienArray (j * 10 + i) =
      { x := 30 + 26 * i, y := 250 + 23 * j, type := if j ≤ 1 then 1 else 2 } ∧
    (initAlienArray (j * 10 + i)).type ≠ ALIEN_DEAD ∧
    initDeathCounter (j * 10 + i) = 10 := by
  have hdiv : (j * 10 + i) / 10 = j := by omega
  have hmod : (j * 10 + i) % 10 = i := by omega
  have hrec : initAlienArray (j * 10 + i) =
      { x := 30 + 26 * i, y := 250 + 23 * j, type := if j ≤ 1 then 1 else 2 } := by
    unfold initAlienArray initAlien
    rw [hdiv, hmod, Alien.mk.injEq]
    refine ⟨by omega, by omega, ?_⟩
    split_ifs <;> omega
  refine ⟨rfl, hrec, ?_, rfl⟩
  rw [hrec]
  show (if j ≤ 1 then 1 else 2) ≠ ALIEN_DEAD
  unfold ALIEN_DEAD
  split_ifs <;> omega

/-- Witness for C10 at column 3, row 2. -/
theorem c10_witness :
    alien_hoard_size = 50 ∧
    initAlienArray (2 * 10 + 3) =
      { x := 30 + 26 * 3, y := 250 + 23 * 2, type := if 2 ≤ 1 then 1 else 2 } ∧
    (initAlienArray (2 * 10 + 3)).type ≠ ALIEN_DEAD ∧
    initDeathCounter (2 * 10 + 3) = 10 :=
  c10_formation_setup 3 2 (by omega) (by omega)

/-! ### Claim C3: front-rank computation -/

/-- Claim C3: for every column `i`, the first-line entry is the record of
the lowest-numbered non-dead row; when all five rows are dead it is the
row-4 record regardless of its state. -/
theorem c3_front_rank (aliens : Nat → Alien) (i : Nat) (hi : i < 10) :
    (∀ j, j < 5 → (aliens (i + 10 * j)).type ≠ ALIEN_DEAD →
      (∀ m, m < j → (aliens (i + 10 * m)).type = ALIEN_DEAD) →
      first_line_entry aliens i = aliens (i + 10 * j)) ∧
    ((∀ j, j < 5 → (aliens (i + 10 * j)).type = ALIEN_DEAD) →
      first_line_entry aliens i = aliens (i + 40)) := by
  constructor
  · intro j hj hAlive hPrev
    interval_cases j
    · simp only [Nat.mul_zero, Nat.add_zero] at hAlive ⊢
      simp [first_line_entry, hAlive]
    · have p0 := hPrev 0 (by omega)
      simp only [Nat.mul_zero, Nat.add_zero] at p0
      norm_num at hAlive ⊢
      simp [first_line_entry, p0, hAlive]
    · have p0 := hPrev 0 (by omega)
      have p1 := hPrev 1 (by omega)
      simp only [Nat.mul_zero, Nat.add_zero] at p0
      norm_num at p1 hAlive ⊢
      simp [first_line_entry, p0, p1, hAlive]
    · have p0 := hPrev 0 (by omega)
      have p1 := hPrev 1 (by omega)
      have p2 := hPrev 2 (by omega)
      simp only [Nat.mul_zero, Nat.add_zero] at p0
      norm_num at p1 p2 hAlive ⊢
      simp [first_line_entry, p0, p1, p2, hAlive]
    · have p0 := hPrev 0 (by omega)
      have p1 := hPrev 1 (by omega)
      have p2 := hPrev 2 (by omega)
      have p3 := hPrev 3 (by omega)
      simp only [Nat.mul_zero, Nat.add_zero] at p0
      norm_num at p1 p2 p3 hAlive ⊢
      simp [first_line_entry, p0, p1, p2, p3, hAlive]
  · intro hAll
    have p0 := hAll 0 (by omega)
    have p1 := hAll 1 (by omega)
    have p2 := hAll 2 (by omega)
    have p3 := hAll 3 (by omega)
    have p4 := hAll 4 (by omega)
    simp only [Nat.mul_zero, Nat.add_zero] at p0
    norm_num at p1 p2 p3 p4
    simp [first_line_entry, p0, p1, p2, p3, p4]

/-- Witness for C3: a column whose rows 0 to 2 are dead and row 3 alive
yields the row-3 record (the spec scenario), on an array that is dead on
rows 0 to 2 of column 0. -/
theorem c3_witness :
    first_line_entry
      (fun n => if n < 30 then ⟨30, 250, ALIEN_DEAD⟩ else initAlienArray n) 0 =
      (fun n => if n < 30 then ⟨30, 250, ALIEN_DEAD⟩ else initAlienArray n) (0 + 10 * 3) :=
  (c3_front_rank (fun n => if n < 30 then ⟨30, 250, ALIEN_DEAD⟩ else initAlienArray n) 0
    (by omega)).1 3 (by omega) (by decide) (by decide)

/-! ### Claim C8: death countdown -/

theorem deathPhaseIter_fst (p : Alien × Nat) (n : Nat) : (deathPhaseIter p n).1 = p.1 := by
  induction n with
  | zero => rfl
  | succ m ih => simpa [deathPhaseIter, deathPhaseStep] using ih

theorem deathPhaseIter_dead_snd (a : Alien) (ha : a.type = ALIEN_DEAD) (c n : Nat) :
    (deathPhaseIter (a, c) n).2 = c - n := by
  induction n with
  | zero => rfl
  | succ m ih =>
    have hf := deathPhaseIter_fst (a, c) m
    show (deathPhaseStep (deathPhaseIter (a, c) m)).2 = c - (m + 1)
    unfold deathPhaseStep deathCountStep
    rw [hf, ih]
    simp only [ha, true_and]
    split_ifs <;> omega

/-- Claim C8: once an alien slot is dead with counter 10, the record itself
never changes, the counter after `n` further death-handling ticks is
`10 - n` (it decrements by exactly 1 while nonzero and stops at 0, never
underflowing), the death sprite is drawn on each of the first 10 such
ticks, and from the 11th on the slot is invisible. -/
theorem c8_death_countdown (a : Alien) (ha : a.type = ALIEN_DEAD) (n : Nat) :
    (deathPhaseIter (a, 10) n).1 = a ∧
    (deathPhaseIter (a, 10) n).2 = 10 - n ∧
    (n < 10 → drawKindOf a ((deathPhaseIter (a, 10) n).2) = DrawKind.deathSprite) ∧
    (10 ≤ n → (deathPhaseIter (a, 10) n).2 = 0 ∧
      drawKindOf a ((deathPhaseIter (a, 10) n).2) = DrawKind.invisible) ∧
    ((deathPhaseIter (a, 10) n).2 ≠ 0 →
      (deathPhaseIter (a, 10) (n + 1)).2 = (deathPhaseIter (a, 10) n).2 - 1) ∧
    ((deathPhaseIter (a, 10) n).2 = 0 → (deathPhaseIter (a, 10) (n + 1)).2 = 0) := by
  have hsnd := deathPhaseIter_dead_snd a ha 10
  refine ⟨deathPhaseIter_fst (a, 10) n, hsnd n, ?_, ?_, ?_, ?_⟩
  · intro hn
    rw [hsnd n]
    unfold drawKindOf
    rw [if_neg (by omega), if_pos ha]
  · intro hn
    rw [hsnd n]
    refine ⟨by omega, ?_⟩
    unfold drawKindOf
    rw [if_pos (by omega)]
  · intro _
    rw [hsnd n, hsnd (n + 1)]
    omega
  · intro h0
    rw [hsnd (n + 1)]
    rw [hsnd n] at h0
    omega

/-- Witness for C8 at tick 3 of a concrete dead alien slot. -/
theorem c8_witness :
    (deathPhaseIter (⟨29, 250, ALIEN_DEAD⟩, 10) 3).1 = ⟨29, 250, ALIEN_DEAD⟩ ∧
    (deathPhaseIter (⟨29, 250, ALIEN_DEAD⟩, 10) 3).2 = 10 - 3 ∧
    (3 < 10 →
      drawKindOf ⟨29, 250, ALIEN_DEAD⟩ ((deathPhaseIter (⟨29, 250, ALIEN_DEAD⟩, 10) 3).2) =
        DrawKind.deathSprite) ∧
    (10 ≤ 3 → (deathPhaseIter (⟨29, 250, ALIEN_DEAD⟩, 10) 3).2 = 0 ∧
      drawKindOf ⟨29, 250, ALIEN_DEAD⟩ ((deathPhaseIter (⟨29, 250, ALIEN_DEAD⟩, 10) 3).2) =
        DrawKind.invisible) ∧
    ((deathPhaseIter (⟨29, 250, ALIEN_DEAD⟩, 10) 3).2 ≠ 0 →
      (deathPhaseIter (⟨29, 250, ALIEN_DEAD⟩, 10) (3 + 1)).2 =
        (deathPhaseIter (⟨29, 250, ALIEN_DEAD⟩, 10) 3).2 - 1) ∧
    ((deathPhaseIter (⟨29, 250, ALIEN_DEAD⟩, 10) 3).2 = 0 →
      (deathPhaseIter (⟨29, 250, ALIEN_DEAD⟩, 10) (3 + 1)).2 = 0) :=
  c8_death_countdown ⟨29, 250, ALIEN_DEAD⟩ rfl 3

/-! ### Claim C9: player movement clamping -/

/-- Claim C9: starting from an in-range position, the player-movement block
leaves `x` within `[0, buffer_width - playerSprite.width]` (the lower bound
holds because `x` is unsigned), and when neither clamping branch applies the
position changes by exactly `2 * move_dir`. -/
theorem c9_player_clamp (x : Nat) (md : Int)
    (hx : x ≤ buffer_width - playerSprite.width) (hmd : md.natAbs ≤ 2 ^ 30) :
    playerMoveStep x md ≤ buffer_width - playerSprite.width ∧
    (2 * md ≠ 0 →
      ¬ buffer_width ≤ i2u ((x : Int) + (playerSprite.width : Int) + 2 * md) →
      ¬ (x : Int) + 2 * md ≤ 0 →
      (playerMoveStep x md : Int) = (x : Int) + 2 * md) := by
  have hw : buffer_width = 300 := rfl
  have hpw : playerSprite.width = 10 := rfl
  have hU : (U32 : Int) = 4294967296 := by norm_num [U32]
  have hmd2 : 2 * md ≤ 2 ^ 31 ∧ -(2 ^ 31) ≤ 2 * md := by
    rcases Int.natAbs_eq md with h | h <;> omega
  by_cases h0 : (2 : Int) * md = 0
  · unfold playerMoveStep
    rw [if_neg (by simpa using h0)]
    exact ⟨hx, fun h => absurd h0 h⟩
  · have key : ∀ hcl1 : ¬ buffer_width ≤ i2u ((x : Int) + (playerSprite.width : Int) + 2 * md),
        ∀ hcl2 : ¬ (x : Int) + 2 * md ≤ 0,
        playerMoveStep x md ≤ 290 ∧ (playerMoveStep x md : Int) = (x : Int) + 2 * md := by
      intro hcl1 hcl2
      have hpos : (0 : Int) < (x : Int) + 2 * md := by omega
      have hlt : (x : Int) + (playerSprite.width : Int) + 2 * md < (U32 : Int) := by
        rw [hpw, hU]; omega
      have hmid : (i2u ((x : Int) + (playerSprite.width : Int) + 2 * md) : Int) =
          (x : Int) + (playerSprite.width : Int) + 2 * md :=
        i2u_of_bounds _ (by rw [hpw]; omega) hlt
      have hsmall : (x : Int) + 2 * md < 290 := by
        have hcl1b := hcl1
        rw [hw, hpw] at hcl1b
        rw [hpw] at hmid
        omega
      have hres : (i2u ((x : Int) + 2 * md) : Int) = (x : Int) + 2 * md :=
        i2u_of_bounds _ (by omega) (by rw [hU]; omega)
      have heq : playerMoveStep x md = i2u ((x : Int) + 2 * md) := by
        unfold playerMoveStep
        rw [if_pos (by simpa using h0), if_neg hcl1, if_neg hcl2]
      constructor
      · rw [heq]; omega
      · rw [heq, hres]
    constructor
    · by_cases hcl1 : buffer_width ≤ i2u ((x : Int) + (playerSprite.width : Int) + 2 * md)
      · have : playerMoveStep x md = buffer_width - playerSprite.width := by
          unfold playerMoveStep
          rw [if_pos (by simpa using h0), if_pos hcl1]
        rw [this]
      · by_cases hcl2 : (x : Int) + 2 * md ≤ 0
        · have : playerMoveStep x md = 0 := by
            unfold playerMoveStep
            rw [if_pos (by simpa using h0), if_neg hcl1, if_pos hcl2]
          rw [this, hw, hpw]; omega
        · rw [hw, hpw]
          exact ((key hcl1 hcl2).1).trans (by omega)
    · intro _ hcl1 hcl2
      exact (key hcl1 hcl2).2

/-- Witness for C9: moving right from x = 100 with accumulator 1 gives 102. -/
theorem c9_witness :
    playerMoveStep 100 1 ≤ buffer_width - playerSprite.width ∧
    (2 * (1 : Int) ≠ 0 →
      ¬ buffer_width ≤ i2u ((100 : Int) + (playerSprite.width : Int) + 2 * 1) →
      ¬ (100 : Int) + 2 * 1 ≤ 0 →
      (playerMoveStep 100 1 : Int) = (100 : Int) + 2 * 1) :=
  c9_player_clamp 100 1 (by decide) (by decide)

/-! ### Claim C6: the alien-fire tick counter (corrected) -/

/-- Counterexample to claim C6 as stated: with the projectile pool full
(`numRockets = 128`), on the tick where the counter reaches 30 it is NOT
reset to 0, and on the next tick it holds 31, outside `[0, 30]` — because
the source resets `frame_counter` inside the `num_rockets <
GAME_MAX_ROCKETS` check. -/
theorem c6_full_pool_counterexample :
    (alienFire ⟨29, fun _ => ⟨0, 0, 0⟩, 128⟩ initAlienArray 0).frame_counter = 30 ∧
    (alienFire (alienFire ⟨29, fun _ => ⟨0, 0, 0⟩, 128⟩ initAlienArray 0)
      initAlienArray 0).frame_counter = 31 ∧
    ¬ (31 ≤ 30) := by
  refine ⟨?_, ?_, by omega⟩ <;> rfl

/-- Claim C6, amended: the counter increments by exactly 1 each tick; on a
tick where it reaches 30 WITH the pool not full, one fire is attempted
(spawning exactly when the drawn first-line alien is not dead) and the
counter resets to 0; when it reaches 30 with the pool full it is not reset;
hence the counter stays within `[0, 29]` at tick boundaries only as long as
the pool is below capacity whenever the counter reaches 30. -/
theorem c6_fire_counter (s : FireState) (fl : Nat → Alien) (rv : Nat)
    (hfc : s.frame_counter + 1 < U32) :
    ((alienFire s fl rv).frame_counter =
      if s.frame_counter + 1 = 30 ∧ s.numRockets < GAME_MAX_ROCKETS then 0
      else s.frame_counter + 1) ∧
    (s.frame_counter + 1 = 30 → s.numRockets < GAME_MAX_ROCKETS →
      (alienFire s fl rv).numRockets =
        if (fl (rv % 10)).type ≠ ALIEN_DEAD then (s.numRockets + 1) % U32
        else s.numRockets) ∧
    (¬ (s.frame_counter + 1 = 30 ∧ s.numRockets < GAME_MAX_ROCKETS) →
      (alienFire s fl rv).numRockets = s.numRockets ∧
      (alienFire s fl rv).rockets = s.rockets) ∧
    (s.frame_counter ≤ 29 → (s.frame_counter = 29 → s.numRockets < GAME_MAX_ROCKETS) →
      (alienFire s fl rv).frame_counter ≤ 29) := by
  have hmod : (s.frame_counter + 1) % U32 = s.frame_counter + 1 := Nat.mod_eq_of_lt hfc
  unfold alienFire
  rw [hmod]
  by_cases hcond : s.frame_counter + 1 = 30 ∧ s.numRockets < GAME_MAX_ROCKETS
  · rw [if_pos hcond]
    have hspawn : (alienSpawn s (fl (rv % 10))).numRockets =
        if (fl (rv % 10)).type ≠ ALIEN_DEAD then (s.numRockets + 1) % U32
        else s.numRockets := by
      unfold alienSpawn
      by_cases hal : (fl (rv % 10)).type ≠ ALIEN_DEAD
      · rw [if_pos hal, if_pos hal]
      · rw [if_neg hal, if_neg hal]
    refine ⟨by rw [if_pos hcond], ?_, ?_, ?_⟩
    · intro _ _
      exact hspawn
    · intro hnc
      exact absurd hcond hnc
    · intro _ _
      exact Nat.zero_le 29
  · rw [if_neg hcond, if_neg hcond]
    refine ⟨rfl, ?_, fun _ => ⟨rfl, rfl⟩, ?_⟩
    · intro h30 hcap
      exact absurd ⟨h30, hcap⟩ hcond
    · intro hle h29
      have hne : s.frame_counter ≠ 29 := fun h => hcond ⟨by omega, h29 h⟩
      show s.frame_counter + 1 ≤ 29
      omega

/-- Witness for C6 (amended): from counter 7 with an empty pool the counter
just increments to 8 and the pool is untouched. -/
theorem c6_witness :
    ((alienFire ⟨7, fun _ => ⟨0, 0, 0⟩, 0⟩ initAlienArray 0).frame_counter =
      if (7 : Nat) + 1 = 30 ∧ (0 : Nat) < GAME_MAX_ROCKETS then 0 else 7 + 1) ∧
    ((7 : Nat) + 1 = 30 → (0 : Nat) < GAME_MAX_ROCKETS →
      (alienFire ⟨7, fun _ => ⟨0, 0, 0⟩, 0⟩ initAlienArray 0).numRockets =
        if (initAlienArray (0 % 10)).type ≠ ALIEN_DEAD then ((0 : Nat) + 1) % U32 else 0) ∧
    (¬ ((7 : Nat) + 1 = 30 ∧ (0 : Nat) < GAME_MAX_ROCKETS) →
      (alienFire ⟨7, fun _ => ⟨0, 0, 0⟩, 0⟩ initAlienArray 0).numRockets = 0 ∧
      (alienFire ⟨7, fun _ => ⟨0, 0, 0⟩, 0⟩ initAlienArray 0).rockets = fun _ => ⟨0, 0, 0⟩) ∧
    ((7 : Nat) ≤ 29 → ((7 : Nat) = 29 → (0 : Nat) < GAME_MAX_ROCKETS) →
      (alienFire ⟨7, fun _ => ⟨0, 0, 0⟩, 0⟩ initAlienArray 0).frame_counter ≤ 29) :=
  c6_fire_counter ⟨7, fun _ => ⟨0, 0, 0⟩, 0⟩ initAlienArray 0 (by decide)

/-! ### Claim C7: direction of alien-fired projectiles (corrected) -/

/-- Counterexample to claim C7 as stated: a rocket spawned by an alien fire
attempt carries direction -3, which is not positive. -/
theorem c7_negative_dir_counterexample :
    ((alienFire ⟨29, fun _ => ⟨0, 0, 0⟩, 0⟩ initAlienArray 0).rockets 0).dir = -3 ∧
    ¬ (0 : Int) < ((alienFire ⟨29, fun _ => ⟨0, 0, 0⟩, 0⟩ initAlienArray 0).rockets 0).dir := by
  constructor
  · rfl
  · intro h
    have : ((alienFire ⟨29, fun _ => ⟨0, 0, 0⟩, 0⟩ initAlienArray 0).rockets 0).dir = -3 := rfl
    omega

/-- Claim C7, amended: a projectile spawned by an alien fire attempt is
anchored near the firing first-line alien at `(x + 4, y - 10)` and carries
the NEGATIVE direction value -3; since the rocket update adds `dir` to `y`
and the player sits at a smaller `y`, that moves it toward the player
(`y` drops by 3 per tick). -/
theorem c7_alien_rocket_direction (s : FireState) (fl : Nat → Alien) (rv : Nat)
    (h30 : s.frame_counter + 1 = 30) (hcap : s.numRockets < GAME_MAX_ROCKETS)
    (halive : (fl (rv % 10)).type ≠ ALIEN_DEAD)
    (hxb : (fl (rv % 10)).x + 4 < U32)
    (hyb : 13 ≤ (fl (rv % 10)).y) (hyu : (fl (rv % 10)).y < U32) :
    ((alienFire s fl rv).rockets s.numRockets).x = (fl (rv % 10)).x + 4 ∧
    ((alienFire s fl rv).rockets s.numRockets).y = (fl (rv % 10)).y - 10 ∧
    ((alienFire s fl rv).rockets s.numRockets).dir = -3 ∧
    ((alienFire s fl rv).rockets s.numRockets).dir < 0 ∧
    (rocket_advance ((alienFire s fl rv).rockets s.numRockets)).y = (fl (rv % 10)).y - 13 ∧
    (rocket_advance ((alienFire s fl rv).rockets s.numRockets)).y <
      ((alienFire s fl rv).rockets s.numRockets).y := by
  have hU : (U32 : Int) = 4294967296 := by norm_num [U32]
  have hmod : (s.frame_counter + 1) % U32 = 30 := by
    rw [h30]
    unfold U32
    omega
  have hrk : (alienFire s fl rv).rockets s.numRockets =
      ⟨((fl (rv % 10)).x + 4) % U32, usub (fl (rv % 10)).y 10, -3⟩ := by
    unfold alienFire
    rw [if_pos ⟨hmod, hcap⟩]
    show (alienSpawn s (fl (rv % 10))).rockets s.numRockets = _
    unfold alienSpawn
    rw [if_pos halive]
    show (if s.numRockets = s.numRockets then _ else _) = _
    rw [if_pos rfl]
  rw [hrk]
  have hxmod : ((fl (rv % 10)).x + 4) % U32 = (fl (rv % 10)).x + 4 := Nat.mod_eq_of_lt hxb
  have hysub : usub (fl (rv % 10)).y 10 = (fl (rv % 10)).y - 10 :=
    usub_eq_sub _ _ (by omega) hyu
  have hadv : (rocket_advance ⟨((fl (rv % 10)).x + 4) % U32, usub (fl (rv % 10)).y 10, -3⟩).y =
      (fl (rv % 10)).y - 13 := by
    unfold rocket_advance
    rw [hysub]
    show i2u (((fl (rv % 10)).y - 10 : Nat) + (-3 : Int)) = (fl (rv % 10)).y - 13
    have hcast : (((fl (rv % 10)).y - 10 : Nat) : Int) = ((fl (rv % 10)).y : Int) - 10 := by
      omega
    have : (i2u (((fl (rv % 10)).y - 10 : Nat) + (-3 : Int)) : Int) =
        ((fl (rv % 10)).y : Int) - 13 := by
      rw [hcast]
      have h2 : (((fl (rv % 10)).y - 10 : Nat) : Int) + (-3 : Int) =
          ((fl (rv % 10)).y : Int) - 13 := by omega
      rw [hcast] at h2
      rw [h2]
      exact i2u_of_bounds _ (by omega) (by rw [hU]; omega)
    omega
  refine ⟨hxmod, hysub, rfl, ?_, hadv, ?_⟩
  · show (-3 : Int) < 0
    decide
  · rw [hadv, hysub]
    show (fl (rv % 10)).y - 13 < (fl (rv % 10)).y - 10
    omega

/-- Witness for C7 (amended): the alien at formation slot 0 fires a rocket
anchored at (34, 240) with direction -3 that advances to y = 237. -/
theorem c7_witness :
    ((alienFire ⟨29, fun _ => ⟨0, 0, 0⟩, 0⟩ initAlienArray 0).rockets 0).x =
      (initAlienArray (0 % 10)).x + 4 ∧
    ((alienFire ⟨29, fun _ => ⟨0, 0, 0⟩, 0⟩ initAlienArray 0).rockets 0).y =
      (initAlienArray (0 % 10)).y - 10 ∧
    ((alienFire ⟨29, fun _ => ⟨0, 0, 0⟩, 0⟩ initAlienArray 0).rockets 0).dir = -3 ∧
    ((alienFire ⟨29, fun _ => ⟨0, 0, 0⟩, 0⟩ initAlienArray 0).rockets 0).dir < 0 ∧
    (rocket_advance ((alienFire ⟨29, fun _ => ⟨0, 0, 0⟩, 0⟩ initAlienArray 0).rockets 0)).y =
      (initAlienArray (0 % 10)).y - 13 ∧
    (rocket_advance ((alienFire ⟨29, fun _ => ⟨0, 0, 0⟩, 0⟩ initAlienArray 0).rockets 0)).y <
      ((alienFire ⟨29, fun _ => ⟨0, 0, 0⟩, 0⟩ initAlienArray 0).rockets 0).y :=
  c7_alien_rocket_direction ⟨29, fun _ => ⟨0, 0, 0⟩, 0⟩ initAlienArray 0
    rfl (by decide) (by decide) (by decide) (by decide) (by decide)

/-! ### The live sprite of an alien type, under the animation-clock
invariant `time < num_frames * frame_duration = 20` that the game loop
maintains (`animAdvance`). -/

theorem animAdvance_lt (t : Nat) (h : t < 20) : animAdvance t < 20 := by
  unfold animAdvance num_frames frame_duration U32
  split_ifs with h2 <;> omega

theorem alienSpriteOf_cases (animTime : Nat → Nat) (hA : ∀ t, animTime t < 20) (ty : Nat)
    (hty : ty = 1 ∨ ty = 2) :
    (ty = 1 ∧ (alienSpriteOf animTime ty = alien_sprite_0 ∨
      alienSpriteOf animTime ty = alien_sprite_1)) ∨
    (ty = 2 ∧ (alienSpriteOf animTime ty = alien_sprite_2 ∨
      alienSpriteOf animTime ty = alien_sprite_3)) := by
  rcases hty with h | h <;> subst h
  · refine Or.inl ⟨rfl, ?_⟩
    have h2 : animTime (1 - 1) / frame_duration = 0 ∨
        animTime (1 - 1) / frame_duration = 1 := by
      have := hA (1 - 1)
      unfold frame_duration
      omega
    unfold alienSpriteOf
    rcases h2 with h2 | h2 <;> rw [h2]
    · exact Or.inl rfl
    · exact Or.inr rfl
  · refine Or.inr ⟨rfl, ?_⟩
    have h2 : animTime (2 - 1) / frame_duration = 0 ∨
        animTime (2 - 1) / frame_duration = 1 := by
      have := hA (2 - 1)
      unfold frame_duration
      omega
    unfold alienSpriteOf
    rcases h2 with h2 | h2 <;> rw [h2]
    · exact Or.inl rfl
    · exact Or.inr rfl

theorem alienSpriteOf_dims (animTime : Nat → Nat) (hA : ∀ t, animTime t < 20) (ty : Nat)
    (hty : ty = 1 ∨ ty = 2) :
    (ty = 1 → (alienSpriteOf animTime ty).width = 11) ∧
    (ty = 2 → (alienSpriteOf animTime ty).width = 8) ∧
    (alienSpriteOf animTime ty).height = 8 := by
  rcases alienSpriteOf_cases animTime hA ty hty with ⟨h1, h | h⟩ | ⟨h1, h | h⟩ <;>
      subst h1 <;> rw [h]
  · exact ⟨fun _ => rfl, fun hh => by omega, rfl⟩
  · exact ⟨fun _ => rfl, fun hh => by omega, rfl⟩
  · exact ⟨fun hh => by omega, fun _ => rfl, rfl⟩
  · exact ⟨fun hh => by omega, fun _ => rfl, rfl⟩

/-! ### Grid geometry of the formation -/

theorem initAlienArray_fields (j : Nat) :
    (initAlienArray j).x = 30 + 26 * (j % 10) ∧
    (initAlienArray j).y = 250 + 23 * (j / 10) ∧
    ((initAlienArray j).type = 1 ∨ (initAlienArray j).type = 2) := by
  unfold initAlienArray initAlien
  refine ⟨by show 30 + j % 10 * (11 + 15) = _; omega,
    by show 250 + j / 10 * (8 + 15) = _; omega, ?_⟩
  show (if j / 10 * 10 + 1 < 20 then 1 else 2) = 1 ∨ (if j / 10 * 10 + 1 < 20 then 1 else 2) = 2
  split_ifs
  · exact Or.inl rfl
  · exact Or.inr rfl

/-- Any rocket that can hit a formation-grid alien is pinned near that
alien's column and row coordinates. -/
theorem hitCandidate_grid (animTime : Nat → Nat) (hA : ∀ t, animTime t < 20) (r : Rocket)
    (j : Nat) (hj : j < 50)
    (h : hitCandidate animTime r (initAlienArray j) = true) :
    30 + 26 * (j % 10) ≤ r.x + 1 ∧ r.x < 30 + 26 * (j % 10) + 11 ∧
    250 + 23 * (j / 10) ≤ r.y + 4 ∧ r.y < 250 + 23 * (j / 10) + 8 := by
  obtain ⟨hx, hy, hty⟩ := initAlienArray_fields j
  unfold hitCandidate at h
  rw [Bool.and_eq_true, decide_eq_true_eq] at h
  obtain ⟨hne, hov⟩ := h
  obtain ⟨hw1, hw2, hh⟩ := alienSpriteOf_dims animTime hA (initAlienArray j).type hty
  unfold sprite_overlap_check at hov
  rw [decide_eq_true_eq] at hov
  obtain ⟨o1, o2, o3, o4⟩ := hov
  rw [hx] at o1 o2
  rw [hy] at o3 o4
  rw [hh] at o3
  have hrw : rocket_sprite.width = 2 := rfl
  have hrh : rocket_sprite.height = 5 := rfl
  rw [hrw] at o2
  rw [hrh] at o4
  have hcb : j % 10 < 10 := Nat.mod_lt _ (by omega)
  have hdb : j / 10 < 5 := by omega
  rcases hty with h1 | h1
  · rw [hw1 h1] at o1
    unfold U32 at o1 o2 o3 o4
    omega
  · rw [hw2 h1] at o1
    unfold U32 at o1 o2 o3 o4
    omega

/-- Under the formation invariant, two aliens that are both hit candidates
for the same rocket coincide: at most one non-dead alien can overlap a
given projectile. -/
theorem hitCandidate_unique (animTime : Nat → Nat) (hA : ∀ t, animTime t < 20)
    (aliens : Nat → Alien) (hInv : alienInv aliens) (r : Rocket)
    {j k : Nat} (hj : j < 50) (hk : k < 50)
    (h1 : hitCandidate animTime r (aliens j) = true)
    (h2 : hitCandidate animTime r (aliens k) = true) : j = k := by
  have hej : aliens j = initAlienArray j := by
    apply hInv j hj
    unfold hitCandidate at h1
    rw [Bool.and_eq_true, decide_eq_true_eq] at h1
    exact h1.1
  have hek : aliens k = initAlienArray k := by
    apply hInv k hk
    unfold hitCandidate at h2
    rw [Bool.and_eq_true, decide_eq_true_eq] at h2
    exact h2.1
  rw [hej] at h1
  rw [hek] at h2
  have g1 := hitCandidate_grid animTime hA r j hj h1
  have g2 := hitCandidate_grid animTime hA r k hk h2
  omega

/-! ### Behaviour of the inner collision loop -/

theorem hitCandidate_parts {animTime : Nat → Nat} {r : Rocket} {a : Alien}
    (h : hitCandidate animTime r a = true) :
    a.type ≠ ALIEN_DEAD ∧ sprite_overlap_check rocket_sprite r.x r.y
      (alienSpriteOf animTime a.type) a.x a.y = true := by
  unfold hitCandidate at h
  rw [Bool.and_eq_true, decide_eq_true_eq] at h
  exact h

theorem scanStep_no_candidate (s : ScanState) (i : Nat) (animTime : Nat → Nat) (j : Nat)
    (h : hitCandidate animTime (s.rockets i) (s.aliens j) = false) :
    scanStep s i animTime j = s := by
  unfold scanStep
  by_cases hd : (s.aliens j).type = ALIEN_DEAD
  · rw [if_pos hd]
  · rw [if_neg hd]
    have hov : ¬ sprite_overlap_check rocket_sprite (s.rockets i).x (s.rockets i).y
        (alienSpriteOf animTime (s.aliens j).type) (s.aliens j).x (s.aliens j).y = true := by
      intro htrue
      unfold hitCandidate at h
      rw [htrue, Bool.and_true, decide_eq_false_iff_not] at h
      exact h hd
    rw [if_neg hov]

theorem scanStep_kills (s : ScanState) (i : Nat) (animTime : Nat → Nat) (j : Nat)
    (h : hitCandidate animTime (s.rockets i) (s.aliens j) = true) :
    ((scanStep s i animTime j).aliens j).type = ALIEN_DEAD := by
  obtain ⟨hne, hov⟩ := hitCandidate_parts h
  unfold scanStep
  rw [if_neg hne, if_pos hov]
  show (if j = j then killAlien (s.aliens j) (alienSpriteOf animTime (s.aliens j).type)
      else s.aliens j).type = ALIEN_DEAD
  rw [if_pos rfl]
  rfl

theorem scanStep_dead_stays (s : ScanState) (i : Nat) (animTime : Nat → Nat) (j k : Nat)
    (h : (s.aliens k).type = ALIEN_DEAD) :
    ((scanStep s i animTime j).aliens k).type = ALIEN_DEAD := by
  unfold scanStep
  by_cases hd : (s.aliens j).type = ALIEN_DEAD
  · rw [if_pos hd]
    exact h
  · rw [if_neg hd]
    by_cases hov : sprite_overlap_check rocket_sprite (s.rockets i).x (s.rockets i).y
        (alienSpriteOf animTime (s.aliens j).type) (s.aliens j).x (s.aliens j).y = true
    · rw [if_pos hov]
      show (if k = j then killAlien (s.aliens j) (alienSpriteOf animTime (s.aliens j).type)
          else s.aliens k).type = ALIEN_DEAD
      by_cases hkj : k = j
      · rw [if_pos hkj]
        rfl
      · rw [if_neg hkj]
        exact h
    · rw [if_neg hov]
      exact h

theorem alienScan_id (s : ScanState) (i : Nat) (animTime : Nat → Nat) (n : Nat)
    (hnone : ∀ j, j < n → hitCandidate animTime (s.rockets i) (s.aliens j) = false) :
    alienScan s i animTime n = s := by
  induction n with
  | zero => rfl
  | succ m ih =>
    have hs : alienScan s i animTime m = s := ih (fun j hj => hnone j (by omega))
    show scanStep (alienScan s i animTime m) i animTime m = s
    rw [hs]
    exact scanStep_no_candidate s i animTime m (hnone m (by omega))

theorem alienScan_dead_mono (s : ScanState) (i : Nat) (animTime : Nat → Nat) (k : Nat)
    {m n : Nat} (hmn : m ≤ n)
    (h : ((alienScan s i animTime m).aliens k).type = ALIEN_DEAD) :
    ((alienScan s i animTime n).aliens k).type = ALIEN_DEAD := by
  induction hmn with
  | refl => exact h
  | step h2 ih => exact scanStep_dead_stays _ i animTime _ k ih

/-- A step of the inner loop leaves every alien other than the scanned one
unchanged. -/
theorem scanStep_aliens_other (s : ScanState) (i : Nat) (animTime : Nat → Nat) (j k : Nat)
    (hkj : k ≠ j) : (scanStep s i animTime j).aliens k = s.aliens k := by
  unfold scanStep
  by_cases hd : (s.aliens j).type = ALIEN_DEAD
  · rw [if_pos hd]
  · rw [if_neg hd]
    by_cases hov : sprite_overlap_check rocket_sprite (s.rockets i).x (s.rockets i).y
        (alienSpriteOf animTime (s.aliens j).type) (s.aliens j).x (s.aliens j).y = true
    · rw [if_pos hov]
      show (if k = j then killAlien (s.aliens j) (alienSpriteOf animTime (s.aliens j).type)
          else s.aliens k) = s.aliens k
      rw [if_neg hkj]
    · rw [if_neg hov]

/-- The formation invariant survives one step of the inner loop: a kill only
rewrites the struck alien, which becomes dead. -/
theorem scanStep_preserves_alienInv (s : ScanState) (i : Nat) (animTime : Nat → Nat)
    (j : Nat) (hInv : alienInv s.aliens) : alienInv (scanStep s i animTime j).aliens := by
  intro k hk hkne
  by_cases hkj : k = j
  · subst hkj
    by_cases hd : (s.aliens k).type = ALIEN_DEAD
    · have hid : scanStep s i animTime k = s := by
        unfold scanStep
        rw [if_pos hd]
      rw [hid] at hkne ⊢
      exact hInv k hk hkne
    · by_cases hov : sprite_overlap_check rocket_sprite (s.rockets i).x (s.rockets i).y
          (alienSpriteOf animTime (s.aliens k).type) (s.aliens k).x (s.aliens k).y = true
      · exfalso
        apply hkne
        apply scanStep_kills
        unfold hitCandidate
        rw [hov, Bool.and_true, decide_eq_true_eq]
        exact hd
      · have hid : scanStep s i animTime k = s := by
          unfold scanStep
          rw [if_neg hd, if_neg hov]
        rw [hid] at hkne ⊢
        exact hInv k hk hkne
  · rw [scanStep_aliens_other s i animTime j k hkj] at hkne ⊢
    exact hInv k hk hkne

/-! ### Claim C1: at most one alien hit per projectile per tick -/

/-- Claim C1: under the formation invariant (every live alien still occupies
its grid slot) and the animation-clock bound the game maintains, the only
alien the processed projectile can kill during the whole 50-alien scan is
the unique non-dead alien whose box overlaps it, which is also the first in
scan order (every earlier alien is no candidate); hence at most one alien
is hit by that projectile in that tick. -/
theorem c1_single_hit_per_projectile (s : ScanState) (i : Nat) (animTime : Nat → Nat)
    (hInv : alienInv s.aliens) (hA : ∀ t, animTime t < 20) :
    (∀ j k, j < 50 → k < 50 → killedOverlapping s i animTime j →
      killedOverlapping s i animTime k → j = k) ∧
    (∀ j, j < 50 → hitCandidate animTime (processedRocket s i) (s.aliens j) = true →
      killedOverlapping s i animTime j ∧
      ∀ m, m < j → hitCandidate animTime (processedRocket s i) (s.aliens m) = false) := by
  have uniq : ∀ j k, j < 50 → k < 50 →
      hitCandidate animTime (s.rockets i) (s.aliens j) = true →
      hitCandidate animTime (s.rockets i) (s.aliens k) = true → j = k :=
    fun j k hj hk h1 h2 =>
      hitCandidate_unique animTime hA s.aliens hInv (s.rockets i) hj hk h1 h2
  constructor
  · intro j k hj hk kj kk
    exact uniq j k hj hk kj.1 kk.1
  · intro j hj hc
    have hnone : ∀ m, m < j →
        hitCandidate animTime (s.rockets i) (s.aliens m) = false := by
      intro m hm
      rcases Bool.eq_false_or_eq_true
        (hitCandidate animTime (s.rockets i) (s.aliens m)) with ht | hf
      · have heq := uniq j m hj (by omega) hc ht
        omega
      · exact hf
    refine ⟨⟨hc, ?_⟩, hnone⟩
    have hid : alienScan s i animTime j = s := alienScan_id s i animTime j hnone
    have hkill : ((alienScan s i animTime (j + 1)).aliens j).type = ALIEN_DEAD := by
      show ((scanStep (alienScan s i animTime j) i animTime j).aliens j).type = ALIEN_DEAD
      rw [hid]
      exact scanStep_kills s i animTime j hc
    exact alienScan_dead_mono s i animTime j (by omega) hkill

/-- Witness for C1: in the freshly set-up formation, a rocket at (30, 248)
is a candidate only for alien 0, which the full scan kills. -/
theorem c1_witness :
    killedOverlapping ⟨initAlienArray, fun _ => ⟨30, 248, 3⟩, 1, 0, 0⟩ 0 (fun _ => 0) 0 :=
  ((c1_single_hit_per_projectile ⟨initAlienArray, fun _ => ⟨30, 248, 3⟩, 1, 0, 0⟩ 0
    (fun _ => 0) (fun j hj h => rfl) (fun t => (by decide : (0 : Nat) < 20))).2 0 (by decide) (by decide)).1

/-! ### Claim C2: the effects of a hit resolution -/

/-- Claim C2: when the scanned projectile overlaps a non-dead alien of type
`t` (1 or 2), the hit resolution adds `10 * (4 - t)` to the score,
increments the kill counter by one, sets the alien to dead, shifts its x
left by `(alien_death_sprite.width - live_sprite.width) / 2`, and
swap-removes the projectile so the live projectile count drops by exactly
one. -/
theorem c2_hit_resolution_effects (s : ScanState) (i j : Nat) (animTime : Nat → Nat)
    (hA : ∀ t, animTime t < 20)
    (hty : (s.aliens j).type = 1 ∨ (s.aliens j).type = 2)
    (hov : sprite_overlap_check rocket_sprite (s.rockets i).x (s.rockets i).y
      (alienSpriteOf animTime (s.aliens j).type) (s.aliens j).x (s.aliens j).y = true)
    (hscore : s.score + 30 < U32)
    (hx2 : 2 ≤ (s.aliens j).x) (hxU : (s.aliens j).x < U32)
    (hn1 : 1 ≤ s.numRockets) (hnU : s.numRockets < U32) :
    (scanStep s i animTime j).score = s.score + 10 * (4 - (s.aliens j).type) ∧
    (scanStep s i animTime j).aliens_killed = s.aliens_killed + 1 ∧
    ((scanStep s i animTime j).aliens j).type = ALIEN_DEAD ∧
    ((scanStep s i animTime j).aliens j).x = (s.aliens j).x -
      (alien_death_sprite.width - (alienSpriteOf animTime (s.aliens j).type).width) / 2 ∧
    (scanStep s i animTime j).numRockets = s.numRockets - 1 ∧
    (scanStep s i animTime j).rockets i = s.rockets (s.numRockets - 1) := by
  have hne : (s.aliens j).type ≠ ALIEN_DEAD := by
    unfold ALIEN_DEAD
    rcases hty with h | h <;> omega
  obtain ⟨hw1, hw2, hh⟩ := alienSpriteOf_dims animTime hA (s.aliens j).type hty
  have hstep : scanStep s i animTime j =
      { aliens := fun k =>
          if k = j then killAlien (s.aliens j) (alienSpriteOf animTime (s.aliens j).type)
          else s.aliens k
        rockets := fun k => if k = i then s.rockets (usub s.numRockets 1) else s.rockets k
        numRockets := usub s.numRockets 1
        score := (s.score + i2u (10 * (4 - ((s.aliens j).type : Int)))) % U32
        aliens_killed := s.aliens_killed + 1 } := by
    unfold scanStep
    rw [if_neg hne, if_pos hov]
  have husub : usub s.numRockets 1 = s.numRockets - 1 := usub_eq_sub _ _ hn1 hnU
  refine ⟨?_, ?_, ?_, ?_, ?_, ?_⟩
  · rw [hstep]
    show (s.score + i2u (10 * (4 - ((s.aliens j).type : Int)))) % U32 =
      s.score + 10 * (4 - (s.aliens j).type)
    rcases hty with h | h <;> rw [h]
    · have h30 : i2u (10 * (4 - ((1 : Nat) : Int))) = 30 := by decide
      rw [h30, Nat.mod_eq_of_lt hscore]
    · have h20 : i2u (10 * (4 - ((2 : Nat) : Int))) = 20 := by decide
      rw [h20, Nat.mod_eq_of_lt (by omega)]
  · rw [hstep]
  · rw [hstep]
    show (if j = j then killAlien (s.aliens j) (alienSpriteOf animTime (s.aliens j).type)
        else s.aliens j).type = ALIEN_DEAD
    rw [if_pos rfl]
    rfl
  · rw [hstep]
    show (if j = j then killAlien (s.aliens j) (alienSpriteOf animTime (s.aliens j).type)
        else s.aliens j).x = _
    rw [if_pos rfl]
    show usub (s.aliens j).x
        ((alien_death_sprite.width - (alienSpriteOf animTime (s.aliens j).type).width) / 2) = _
    apply usub_eq_sub _ _ ?_ hxU
    have h13 : alien_death_sprite.width = 13 := rfl
    rcases hty with h | h
    · rw [h13, hw1 h]
      omega
    · rw [h13, hw2 h]
      omega
  · rw [hstep]
    exact husub
  · rw [hstep]
    show (if i = i then s.rockets (usub s.numRockets 1) else s.rockets i) =
      s.rockets (s.numRockets - 1)
    rw [if_pos rfl, husub]

/-- Witness for C2: the rocket at (30, 248) hitting the type-1 alien in
formation slot 0 scores 30, kills it, recentres it to x = 29, and shrinks
the pool from 1 to 0. -/
theorem c2_witness :
    (scanStep ⟨initAlienArray, fun _ => ⟨30, 248, 3⟩, 1, 0, 0⟩ 0 (fun _ => 0) 0).score =
      0 + 10 * (4 - (initAlienArray 0).type) ∧
    (scanStep ⟨initAlienArray, fun _ => ⟨30, 248, 3⟩, 1, 0, 0⟩ 0 (fun _ => 0) 0).aliens_killed =
      0 + 1 ∧
    ((scanStep ⟨initAlienArray, fun _ => ⟨30, 248, 3⟩, 1, 0, 0⟩ 0 (fun _ => 0) 0).aliens 0).type =
      ALIEN_DEAD ∧
    ((scanStep ⟨initAlienArray, fun _ => ⟨30, 248, 3⟩, 1, 0, 0⟩ 0 (fun _ => 0) 0).aliens 0).x =
      (initAlienArray 0).x -
        (alien_death_sprite.width - (alienSpriteOf (fun _ => 0) (initAlienArray 0).type).width) / 2 ∧
    (scanStep ⟨initAlienArray, fun _ => ⟨30, 248, 3⟩, 1, 0, 0⟩ 0 (fun _ => 0) 0).numRockets =
      1 - 1 ∧
    (scanStep ⟨initAlienArray, fun _ => ⟨30, 248, 3⟩, 1, 0, 0⟩ 0 (fun _ => 0) 0).rockets 0 =
      (fun _ => (⟨30, 248, 3⟩ : Rocket)) (1 - 1) :=
  c2_hit_resolution_effects ⟨initAlienArray, fun _ => ⟨30, 248, 3⟩, 1, 0, 0⟩ 0 0 (fun _ => 0)
    (fun t => (by decide : (0 : Nat) < 20)) (by decide) (by decide) (by decide) (by decide) (by decide)
    (by decide) (by decide)

/-! ### Claim C4: DrawSprite clipping -/

theorem pix_index_inj {w a b a2 b2 : Nat} (hb : b < w) (hb2 : b2 < w)
    (h : a * w + b = a2 * w + b2) : a = a2 ∧ b = b2 := by
  have h1 : (a * w + b) % w = b := by
    rw [Nat.mul_comm a w, Nat.mul_add_mod]
    exact Nat.mod_eq_of_lt hb
  have h2 : (a2 * w + b2) % w = b2 := by
    rw [Nat.mul_comm a2 w, Nat.mul_add_mod]
    exact Nat.mod_eq_of_lt hb2
  rw [h, h2] at h1
  have hbb : b = b2 := h1.symm
  have haa : a = a2 := by
    have hmul : a * w = a2 * w := by omega
    exact Nat.eq_of_mul_eq_mul_right (by omega) hmul
  exact ⟨haa, hbb⟩

theorem drawPix_dims (b : Buffer) (s : Sprite) (x y color i j : Nat) :
    (drawPix b s x y color i j).width = b.width ∧
    (drawPix b s x y color i j).height = b.height := by
  unfold drawPix
  split
  · exact ⟨rfl, rfl⟩
  · exact ⟨rfl, rfl⟩

theorem drawSpriteJ_dims (b : Buffer) (s : Sprite) (x y color i : Nat) (m : Nat) :
    (drawSpriteJ b s x y color i m).width = b.width ∧
    (drawSpriteJ b s x y color i m).height = b.height := by
  induction m with
  | zero => exact ⟨rfl, rfl⟩
  | succ m ih =>
    have h := drawPix_dims (drawSpriteJ b s x y color i m) s x y color i m
    exact ⟨h.1.trans ih.1, h.2.trans ih.2⟩

theorem drawSpriteI_dims (b : Buffer) (s : Sprite) (x y color : Nat) (m : Nat) :
    (drawSpriteI b s x y color m).width = b.width ∧
    (drawSpriteI b s x y color m).height = b.height := by
  induction m with
  | zero => exact ⟨rfl, rfl⟩
  | succ m ih =>
    have h := drawSpriteJ_dims (drawSpriteI b s x y color m) s x y color m s.height
    exact ⟨h.1.trans ih.1, h.2.trans ih.2⟩

/-- With no 32-bit wrap, the single-pixel step writes exactly the in-bounds
masked target and touches nothing else. -/
theorem drawPix_data (b : Buffer) (s : Sprite) (x y color i j : Nat)
    (hi : i < s.width) (hj : j < s.height)
    (hx : x + s.width ≤ U32) (hy : y + s.height ≤ U32) (n : Nat) :
    (drawPix b s x y color i j).data n =
      if s.bit i j = true ∧ y + (s.height - 1 - j) < b.height ∧ x + i < b.width ∧
          n = (y + (s.height - 1 - j)) * b.width + (x + i) then color
      else b.data n := by
  have hyy : usub ((s.height - 1 + y) % U32) j = y + (s.height - 1 - j) := by
    rw [Nat.mod_eq_of_lt (by omega), usub_eq_sub _ _ (by omega) (by omega)]
    omega
  have hxx : (x + i) % U32 = x + i := Nat.mod_eq_of_lt (by omega)
  unfold drawPix
  rw [hyy, hxx]
  by_cases hc : s.bit i j = true ∧ y + (s.height - 1 - j) < b.height ∧ x + i < b.width
  · rw [if_pos hc]
    obtain ⟨h1, h2, h3⟩ := hc
    by_cases hn : n = (y + (s.height - 1 - j)) * b.width + (x + i)
    · show (if n = _ then color else b.data n) = _
      rw [if_pos hn, if_pos ⟨h1, h2, h3, hn⟩]
    · show (if n = _ then color else b.data n) = _
      rw [if_neg hn, if_neg (fun h => hn h.2.2.2)]
  · rw [if_neg hc, if_neg (fun h => hc ⟨h.1, h.2.1, h.2.2.1⟩)]

theorem coveredColPix_succ (s : Sprite) (x y cx cy i m : Nat) :
    coveredColPix s x y cx cy i (m + 1) =
      (coveredColPix s x y cx cy i m ||
        (s.bit i m && decide (cx = x + i) && decide (cy = y + (s.height - 1 - m)))) := by
  unfold coveredColPix
  rw [List.range_succ, List.any_append]
  simp

theorem coveredPixUpTo_succ (s : Sprite) (x y cx cy m : Nat) :
    coveredPixUpTo s x y cx cy (m + 1) =
      (coveredPixUpTo s x y cx cy m || coveredColPix s x y cx cy m s.height) := by
  unfold coveredPixUpTo
  rw [List.range_succ, List.any_append]
  simp

theorem ite_color_or (A N : Bool) (c d : Nat) :
    (if N = true then c else if A = true then c else d) =
      (if (A || N) = true then c else d) := by
  cases A <;> cases N <;> simp

/-- The inner column pass, characterised on every in-bounds pixel. -/
theorem drawSpriteJ_pix (b : Buffer) (s : Sprite) (x y color i : Nat)
    (hi : i < s.width) (hx : x + s.width ≤ U32) (hy : y + s.height ≤ U32)
    (cx cy : Nat) (hcx : cx < b.width) (hcy : cy < b.height) (m : Nat) (hm : m ≤ s.height) :
    (drawSpriteJ b s x y color i m).data (cy * b.width + cx) =
      if coveredColPix s x y cx cy i m = true then color
      else b.data (cy * b.width + cx) := by
  induction m with
  | zero =>
    show b.data _ = if coveredColPix s x y cx cy i 0 = true then color else b.data _
    rw [if_neg (by rw [show coveredColPix s x y cx cy i 0 = false from rfl]; exact
      Bool.false_ne_true)]
  | succ m ih =>
    have ihm := ih (by omega)
    show (drawPix (drawSpriteJ b s x y color i m) s x y color i m).data
      (cy * b.width + cx) = _
    have hd := drawSpriteJ_dims b s x y color i m
    rw [drawPix_data _ s x y color i m hi (by omega) hx hy, hd.1, hd.2, ihm,
      coveredColPix_succ, ← ite_color_or]
    by_cases hn : (s.bit i m && decide (cx = x + i) &&
        decide (cy = y + (s.height - 1 - m))) = true
    · have h3 := hn
      simp only [Bool.and_eq_true, decide_eq_true_eq] at h3
      obtain ⟨⟨hbit, hcxe⟩, hcye⟩ := h3
      rw [if_pos hn, if_pos ⟨hbit, hcye ▸ hcy, hcxe ▸ hcx, by rw [hcxe, hcye]⟩]
    · have hC : ¬(s.bit i m = true ∧ y + (s.height - 1 - m) < b.height ∧ x + i < b.width ∧
          cy * b.width + cx = (y + (s.height - 1 - m)) * b.width + (x + i)) := by
        intro hC
        apply hn
        obtain ⟨hbit, hyb, hxb, hidx⟩ := hC
        obtain ⟨hcyE, hcxE⟩ := pix_index_inj hcx hxb hidx
        simp [hbit, hcxE, hcyE]
      rw [if_neg hC, if_neg hn]

/-- The outer column loop, characterised on every in-bounds pixel. -/
theorem drawSpriteI_pix (b : Buffer) (s : Sprite) (x y color : Nat)
    (hx : x + s.width ≤ U32) (hy : y + s.height ≤ U32)
    (cx cy : Nat) (hcx : cx < b.width) (hcy : cy < b.height) (m : Nat) (hm : m ≤ s.width) :
    (drawSpriteI b s x y color m).data (cy * b.width + cx) =
      if coveredPixUpTo s x y cx cy m = true then color
      else b.data (cy * b.width + cx) := by
  induction m with
  | zero =>
    show b.data _ = if coveredPixUpTo s x y cx cy 0 = true then color else b.data _
    rw [if_neg (by rw [show coveredPixUpTo s x y cx cy 0 = false from rfl]; exact
      Bool.false_ne_true)]
  | succ m ih =>
    have ihm := ih (by omega)
    show (drawSpriteJ (drawSpriteI b s x y color m) s x y color m s.height).data
      (cy * b.width + cx) = _
    have hd := drawSpriteI_dims b s x y color m
    have hidx : cy * b.width + cx = cy * (drawSpriteI b s x y color m).width + cx := by
      rw [hd.1]
    rw [hidx, drawSpriteJ_pix (drawSpriteI b s x y color m) s x y color m (by omega) hx hy
      cx cy (by rw [hd.1]; exact hcx) (by rw [hd.2]; exact hcy) s.height (by omega),
      ← hidx, ihm, coveredPixUpTo_succ, ← ite_color_or]

/-- No write of the single-pixel step lands at or beyond `width * height`. -/
theorem drawPix_oob (b : Buffer) (s : Sprite) (x y color i j : Nat) (n : Nat)
    (hn : b.width * b.height ≤ n) :
    (drawPix b s x y color i j).data n = b.data n := by
  unfold drawPix
  split
  · next h =>
    obtain ⟨hbit, hyb, hxb⟩ := h
    show (if n = _ then color else b.data n) = b.data n
    rw [if_neg ?_]
    intro heq
    have h2 : usub ((s.height - 1 + y) % U32) j * b.width + (x + i) % U32 <
        (usub ((s.height - 1 + y) % U32) j + 1) * b.width := by
      rw [Nat.succ_mul]
      omega
    have h3 : (usub ((s.height - 1 + y) % U32) j + 1) * b.width ≤ b.height * b.width :=
      Nat.mul_le_mul_right _ (by omega)
    rw [Nat.mul_comm b.width b.height] at hn
    omega
  · rfl

theorem drawSpriteJ_oob (b : Buffer) (s : Sprite) (x y color i : Nat) (m : Nat) (n : Nat)
    (hn : b.width * b.height ≤ n) :
    (drawSpriteJ b s x y color i m).data n = b.data n := by
  induction m with
  | zero => rfl
  | succ m ih =>
    have hd := drawSpriteJ_dims b s x y color i m
    show (drawPix (drawSpriteJ b s x y color i m) s x y color i m).data n = b.data n
    rw [drawPix_oob _ s x y color i m n (by rw [hd.1, hd.2]; exact hn), ih]

theorem drawSpriteI_oob (b : Buffer) (s : Sprite) (x y color : Nat) (m : Nat) (n : Nat)
    (hn : b.width * b.height ≤ n) :
    (drawSpriteI b s x y color m).data n = b.data n := by
  induction m with
  | zero => rfl
  | succ m ih =>
    have hd := drawSpriteI_dims b s x y color m
    show (drawSpriteJ (drawSpriteI b s x y color m) s x y color m s.height).data n = b.data n
    rw [drawSpriteJ_oob _ s x y color m s.height n (by rw [hd.1, hd.2]; exact hn), ih]

/-- Counterexample to claim C4 as stated: anchoring the rocket sprite at
`x = 2 ^ 32 - 1` on a 3 x 6 buffer, every set bit has its mathematical
x-coordinate `x + i` outside `[0, 3)`, yet the buffer changes: unsigned
wraparound maps `x + 1` to column 0, whose pixel (0, 0) is overwritten. -/
theorem c4_wraparound_counterexample :
    (DrawSprite ⟨3, 6, fun _ => 7⟩ rocket_sprite (U32 - 1) 0 5).data 0 = 5 ∧
    (∀ i, i < rocket_sprite.width → ¬ (U32 - 1) + i < 3) ∧ (5 : Nat) ≠ 7 := by
  refine ⟨by decide, ?_, by decide⟩
  intro i hi
  have h2 : i < 2 := hi
  unfold U32
  omega

/-- Claim C4, amended with the no-wraparound hypotheses `x + width ≤ 2 ^ 32`
and `y + height ≤ 2 ^ 32` (otherwise unsigned wraparound can re-enter the
buffer): `DrawSprite` writes `color` exactly to the in-bounds pixels
`(x + i, y + height - 1 - j)` whose mask bit is set; set bits whose
coordinates fall outside the buffer are skipped silently, pixels not
covered by a set bit keep their old value, and no cell at or beyond
`width * height` is ever written. -/
theorem c4_draw_clipping (b : Buffer) (s : Sprite) (x y color : Nat)
    (hx : x + s.width ≤ U32) (hy : y + s.height ≤ U32) :
    (∀ cx cy, cx < b.width → cy < b.height →
      getPix (DrawSprite b s x y color) cx cy =
        if coveredPix s x y cx cy = true then color else getPix b cx cy) ∧
    (∀ n, b.width * b.height ≤ n → (DrawSprite b s x y color).data n = b.data n) := by
  constructor
  · intro cx cy hcx hcy
    unfold getPix DrawSprite
    have hd := drawSpriteI_dims b s x y color s.width
    rw [hd.1]
    exact drawSpriteI_pix b s x y color hx hy cx cy hcx hcy s.width (by omega)
  · intro n hn
    unfold DrawSprite
    exact drawSpriteI_oob b s x y color s.width n hn

/-- Witness for C4: drawing the rocket sprite at (1, 1) on a 3 x 6 buffer of
7s paints the covered pixel (1, 2) and leaves the uncovered pixel (0, 0)
and the out-of-range cell 100 unchanged. -/
theorem c4_witness :
    (getPix (DrawSprite ⟨3, 6, fun _ => 7⟩ rocket_sprite 1 1 5) 1 2 =
      if coveredPix rocket_sprite 1 1 1 2 = true then 5
      else getPix ⟨3, 6, fun _ => 7⟩ 1 2) ∧
    (getPix (DrawSprite ⟨3, 6, fun _ => 7⟩ rocket_sprite 1 1 5) 0 0 =
      if coveredPix rocket_sprite 1 1 0 0 = true then 5
      else getPix ⟨3, 6, fun _ => 7⟩ 0 0) ∧
    (DrawSprite ⟨3, 6, fun _ => 7⟩ rocket_sprite 1 1 5).data 100 =
      Buffer.data ⟨3, 6, fun _ => 7⟩ 100 :=
  ⟨(c4_draw_clipping ⟨3, 6, fun _ => 7⟩ rocket_sprite 1 1 5 (by decide) (by decide)).1
      1 2 (by decide) (by decide),
    (c4_draw_clipping ⟨3, 6, fun _ => 7⟩ rocket_sprite 1 1 5 (by decide) (by decide)).1
      0 0 (by decide) (by decide),
    (c4_draw_clipping ⟨3, 6, fun _ => 7⟩ rocket_sprite 1 1 5 (by decide) (by decide)).2
      100 (by decide)⟩

end AlienInvaders
